import Mathlib

/-!
# azuredevops-go: the user-listing web service

A shallow embedding of `app/db.go`, `app/handlers.go` and `app/main.go`.

The Go code talks to three outside parties: the process environment, the
`database/sql` pool with its MySQL driver, and `net/http`.  Each of them is
an explicit input of the embedding (`Env`, `Database`, `Templates`), the
global variable `DB` is a field of the program state, and every call that
has an effect outside the program is appended to a trace of `Event`s, in
program order.
-/

namespace AzureDevopsGo

/-! ## Go values -/

/-- A Go `error` value.  `errorf msg` is a leaf error (one made by
`fmt.Errorf` without `%w`, or one handed back by a library); `wrap ctx cause`
is `fmt.Errorf(ctx + ": %w", cause)`. -/
inductive GoError where
  | errorf (msg : String)
  | wrap (ctx : String) (cause : GoError)
deriving DecidableEq, Repr

/-- The text of `err.Error()`. -/
def GoError.Error : GoError → String
  | .errorf msg => msg
  | .wrap ctx cause => ctx ++ ": " ++ cause.Error

/-- A `*sql.DB`: a pointer, identified by its address. -/
structure Handle where
  addr : Nat
deriving DecidableEq, Repr

/-- A `time.Time` read from a `created_at` column, identified by its RFC 3339
rendering (the text `encoding/json` writes for it). -/
structure Time where
  rfc3339 : String
deriving DecidableEq, Repr

/-- A Go slice: `none` is the nil slice, `some l` a non-nil slice. -/
abbrev GoSlice (α : Type) := Option (List α)

/-- The built-in `append(s, x)`: appending to the nil slice allocates. -/
def GoSlice.append {α : Type} : GoSlice α → α → GoSlice α
  | none, x => some [x]
  | some l, x => some (l ++ [x])

/-- The built-in `len(s)`. -/
def GoSlice.len {α : Type} : GoSlice α → Nat
  | none => 0
  | some l => l.length

/-- The elements of a slice, in order (none for the nil slice). -/
def GoSlice.elems {α : Type} : GoSlice α → List α
  | none => []
  | some l => l

/-! ## Effects -/

/-- The calls with an effect outside the program, as they appear in the
source.  Durations are in seconds.  `fatal` is `log.Fatalf`: the line is
logged and the process exits with status 1, so it is the last event of a
run.  The `defer DB.Close()` of `main` has no event: `main` only ever ends
in `log.Fatalf`, which runs no deferred call. -/
inductive Event where
  | log (line : String)
  | fatal (line : String)
  | sqlOpen (driverName dsn : String)
  | setConnMaxLifetime (db : Handle) (seconds : Nat)
  | setMaxOpenConns (db : Handle) (n : Nat)
  | setMaxIdleConns (db : Handle) (n : Nat)
  | ping (db : Handle)
  | sleep (seconds : Nat)
  | query (db : Handle) (text : String)
  | rowsNext
  | rowsScan
  | rowsErr
  | rowsClose
  | parseFiles (path : String)
  | handleFunc (path method : String)
  | listenAndServe (addr : String)
deriving DecidableEq, Repr

/-- The program state: the global `DB` of `db.go` and the trace so far. -/
structure State where
  DB : Option Handle
  trace : List Event
deriving DecidableEq, Repr

/-- Record one call in the trace. -/
def State.emit (s : State) (e : Event) : State :=
  { s with trace := s.trace ++ [e] }

/-- What `InitDB` sees of the outside: the environment variables, the result
of `sql.Open`, and the result of the `n`-th call of `db.Ping()` (counted from
0; `none` is a nil error, a live connection). -/
structure Env where
  getenv : String → String
  sqlOpen : String → String → Except GoError Handle
  ping : Nat → Option GoError

/-! ## db.go -/

/-- The record `User` of `db.go`. -/
structure User where
  ID : Int
  Username : String
  Email : String
  CreatedAt : Time
  IsActive : Bool
deriving DecidableEq, Repr

/-- The constant `maxRetries` of `InitDB`. -/
def maxRetries : Nat := 12

/-- The error of line 36. -/
def errMissingEnv : GoError :=
  .errorf "missing one or more required database environment variables"

/-- The error of line 69. -/
def errRetriesExhausted : GoError :=
  .errorf ("failed to establish database connection after " ++ toString maxRetries ++ " retries")

/-- The retry loop of `InitDB` (lines 58-69), entered with loop variable `i`
and `left = maxRetries - i` iterations still allowed by `i < maxRetries`. -/
def retryLoop (env : Env) (db : Handle) : Nat → Nat → State → State × Option GoError
  | 0, _, s => (s, some errRetriesExhausted)
  | left + 1, i, s =>
    let s := s.emit (.ping db)
    match env.ping i with
    | none =>
      let s := { s with DB := some db }
      let s := s.emit (.log "Successfully connected to MySQL!")
      (s, none)
    | some _ =>
      let s := s.emit (.log ("Database ping failed (Attempt " ++ toString (i + 1) ++ "/"
        ++ toString maxRetries ++ "). Retrying in 5 seconds..."))
      let s := s.emit (.sleep 5)
      retryLoop env db left (i + 1) s

/-- The `fmt.Sprintf` of line 40. -/
def formatDSN (dbUser dbPassword dbHost dbPort dbName : String) : String :=
  dbUser ++ ":" ++ dbPassword ++ "@tcp(" ++ dbHost ++ ":" ++ dbPort ++ ")/"
    ++ dbName ++ "?charset=utf8&parseTime=True&loc=Local"

/-- The function `InitDB` of `db.go`: the final state and the returned `error`
(`none` is nil). -/
def InitDB (env : Env) (s : State) : State × Option GoError :=
  let dbHost := env.getenv "DB_HOST"
  let dbPort := env.getenv "DB_PORT"
  let dbUser := env.getenv "MYSQL_USER"
  let dbPassword := env.getenv "MYSQL_PASSWORD"
  let dbName := env.getenv "MYSQL_DATABASE"
  if dbHost = "" ∨ dbPort = "" ∨ dbUser = "" ∨ dbPassword = "" ∨ dbName = "" then
    (s, some errMissingEnv)
  else
    let dsn := formatDSN dbUser dbPassword dbHost dbPort dbName
    let s := s.emit (.log ("Attempting to connect to: " ++ dbUser ++ "@tcp(" ++ dbHost ++ ":"
      ++ dbPort ++ ")/" ++ dbName))
    let s := s.emit (.sqlOpen "mysql" dsn)
    match env.sqlOpen "mysql" dsn with
    | .error err => (s, some (.wrap "failed to open database connection" err))
    | .ok db =>
      let s := s.emit (.setConnMaxLifetime db (60 * 3))
      let s := s.emit (.setMaxOpenConns db 10)
      let s := s.emit (.setMaxIdleConns db 10)
      retryLoop env db maxRetries 0 s

/-- The five values `rows.Scan` stores through its five destination
pointers, named after the columns of the `SELECT`. -/
structure Columns where
  id : Int
  username : String
  email : String
  created_at : Time
  is_active : Bool
deriving DecidableEq, Repr

/-- One row of a result set, as `rows.Scan` with destinations of the types
`int, string, string, time.Time, bool` finds it: the five converted column
values, or the conversion error. -/
structure Row where
  scan : Except GoError Columns

/-- A `*sql.Rows`: the rows `rows.Next()` yields before it returns false, and
the error `rows.Err()` then reports (`none` is nil). -/
structure ResultSet where
  rows : List Row
  err : Option GoError

/-- What `GetUsers` sees of the outside: the result of `db.Query(text)`. -/
structure Database where
  query : Handle → String → Except GoError ResultSet

/-- How a Go call ends: it returns, or it panics. -/
inductive Outcome (α : Type) where
  | ret (a : α)
  | panic (msg : String)
deriving DecidableEq, Repr

/-- The text of the query of `GetUsers`. -/
def usersQuery : String := "SELECT id, username, email, created_at, is_active FROM users"

/-- The scan loop of `GetUsers` (lines 82-89) over the rows still to come,
with `users` as accumulated so far.  `.error e` is the early
`return nil, e` of line 86. -/
def scanLoop : List Row → GoSlice User → State → State × Except GoError (GoSlice User)
  | [], users, s => (s.emit .rowsNext, .ok users)
  | row :: rest, users, s =>
    let s := s.emit .rowsNext
    let s := s.emit .rowsScan
    match row.scan with
    | .error err => (s, .error (.wrap "error scanning user row" err))
    | .ok c =>
      let u : User :=
        { ID := c.id, Username := c.username, Email := c.email,
          CreatedAt := c.created_at, IsActive := c.is_active }
      scanLoop rest (users.append u) s

/-- The function `GetUsers` of `db.go`: the final state and the returned pair
`([]User, error)`.  Calling `Query` through a nil `DB` panics. -/
def GetUsers (dbs : Database) (s : State) :
    State × Outcome (GoSlice User × Option GoError) :=
  match s.DB with
  | none => (s, .panic "runtime error: invalid memory address or nil pointer dereference")
  | some db =>
    let s := s.emit (.query db usersQuery)
    match dbs.query db usersQuery with
    | .error err => (s, .ret (none, some (.wrap "error querying users" err)))
    | .ok rs =>
      match scanLoop rs.rows none s with
      | (s, .error e) => (s.emit .rowsClose, .ret (none, some e))
      | (s, .ok users) =>
        let s := s.emit .rowsErr
        match rs.err with
        | some err =>
          (s.emit .rowsClose, .ret (none, some (.wrap "error during row iteration" err)))
        | none => (s.emit .rowsClose, .ret (users, none))

/-! ## encoding/json, as far as the handlers use it -/

/-- The escape `encoding/json` writes for one character of a string, with
HTML escaping on (the default of `json.Encoder`), as of Go 1.22. -/
def escapeChar (c : Char) : String :=
  if c = '"' then "\\\""
  else if c = '\\' then "\\\\"
  else if c = '\x08' then "\\b"
  else if c = '\x0c' then "\\f"
  else if c = '\n' then "\\n"
  else if c = '\r' then "\\r"
  else if c = '\t' then "\\t"
  else if c.toNat < 0x20 ∨ c = '<' ∨ c = '>' ∨ c = '&' then
    "\\u00" ++ String.singleton (Nat.digitChar (c.toNat / 16))
      ++ String.singleton (Nat.digitChar (c.toNat % 16))
  else if c.toNat = 0x2028 then "\\u2028"
  else if c.toNat = 0x2029 then "\\u2029"
  else String.singleton c

/-- The JSON encoding of a Go `string`. -/
def encodeString (s : String) : String :=
  "\"" ++ String.join (s.toList.map escapeChar) ++ "\""

/-- The JSON encoding of a `map[string]string`, given as its entries in
sorted key order. -/
def encodeStringMap (m : List (String × String)) : String :=
  "\x7b" ++ ",".intercalate (m.map (fun kv => encodeString kv.1 ++ ":" ++ encodeString kv.2)) ++ "\x7d"

/-- The JSON encoding of a `User`: one object, fields in declaration order
under the names of the struct tags. -/
def encodeUser (u : User) : String :=
  "\x7b" ++ encodeString "id" ++ ":" ++ toString u.ID
    ++ "," ++ encodeString "username" ++ ":" ++ encodeString u.Username
    ++ "," ++ encodeString "email" ++ ":" ++ encodeString u.Email
    ++ "," ++ encodeString "created_at" ++ ":" ++ "\"" ++ u.CreatedAt.rfc3339 ++ "\""
    ++ "," ++ encodeString "is_active" ++ ":" ++ (if u.IsActive then "true" else "false")
    ++ "\x7d"

/-- The JSON array of the given records. -/
def encodeUserArray (l : List User) : String :=
  "[" ++ ",".intercalate (l.map encodeUser) ++ "]"

/-- The JSON encoding of a `[]User`: `null` for the nil slice, an array
otherwise. -/
def encodeUsers : GoSlice User → String
  | none => "null"
  | some l => encodeUserArray l

/-! ## net/http, as far as the handlers use it -/

/-- An `http.ResponseWriter`: the header map the handler edits, the status
code once the header is written, the header as it was written, and the body
so far.  What the server adds on its own (`Date`, `Content-Length`, a
sniffed `Content-Type`) is outside the handlers and not recorded. -/
structure ResponseWriter where
  header : List (String × String)
  status : Option Nat
  sent : List (String × String)
  body : String
deriving DecidableEq, Repr

/-- A fresh response. -/
def ResponseWriter.new : ResponseWriter :=
  { header := [], status := none, sent := [], body := "" }

/-- The call `w.Header().Del(key)`. -/
def ResponseWriter.del (w : ResponseWriter) (key : String) : ResponseWriter :=
  { w with header := w.header.filter (fun kv => kv.1 ≠ key) }

/-- The call `w.Header().Set(key, value)`. -/
def ResponseWriter.set (w : ResponseWriter) (key value : String) : ResponseWriter :=
  { w with header := (w.header.filter (fun kv => kv.1 ≠ key)) ++ [(key, value)] }

/-- The call `w.WriteHeader(code)`: a second call changes nothing. -/
def ResponseWriter.WriteHeader (w : ResponseWriter) (code : Nat) : ResponseWriter :=
  match w.status with
  | some _ => w
  | none => { w with status := some code, sent := w.header }

/-- The call `w.Write(data)`: writes the header with status 200 first if it
has not been written. -/
def ResponseWriter.Write (w : ResponseWriter) (data : String) : ResponseWriter :=
  let w := w.WriteHeader 200
  { w with body := w.body ++ data }

/-- The value a header had when the header was written. -/
def ResponseWriter.sentValue (w : ResponseWriter) (key : String) : Option String :=
  (w.sent.find? (fun kv => kv.1 = key)).map (fun kv => kv.2)

/-- The function `http.Error(w, error, code)`. -/
def httpError (w : ResponseWriter) (error : String) (code : Nat) : ResponseWriter :=
  let w := w.del "Content-Length"
  let w := w.set "Content-Type" "text/plain; charset=utf-8"
  let w := w.set "X-Content-Type-Options" "nosniff"
  let w := w.WriteHeader code
  w.Write (error ++ "\n")

/-- The call `json.NewEncoder(w).Encode(v)`, given the JSON encoding of `v`:
the encoding followed by a newline, in one `Write`. -/
def jsonEncode (w : ResponseWriter) (encoding : String) : ResponseWriter :=
  w.Write (encoding ++ "\n")

/-- The constant `http.StatusInternalServerError`. -/
def StatusInternalServerError : Nat := 500

/-- The constant `http.StatusOK`. -/
def StatusOK : Nat := 200

/-! ## handlers.go -/

/-- The struct `TemplateData`. -/
structure TemplateData where
  Users : GoSlice User

/-- A parsed `*template.Template`, as `t.Execute(w, data)` behaves: the
chunks it writes to `w`, in order, and the error it returns. -/
abbrev Template := TemplateData → List String × Option GoError

/-- What `GetRootHandler` sees of the template files on disk: the result of
`template.ParseFiles(path)`. -/
structure Templates where
  parseFiles : String → Except GoError Template

/-- The function `GetRootHandler` of `handlers.go`. -/
def GetRootHandler (dbs : Database) (tpl : Templates) (s : State) (w : ResponseWriter) :
    State × Outcome ResponseWriter :=
  match GetUsers dbs s with
  | (s, .panic msg) => (s, .panic msg)
  | (s, .ret (_, some err)) =>
    let s := s.emit (.log ("Error fetching users for template: " ++ err.Error))
    (s, .ret (httpError w "Failed to load user data for web page." StatusInternalServerError))
  | (s, .ret (users, none)) =>
    let s := s.emit (.parseFiles "templates/index.html")
    match tpl.parseFiles "templates/index.html" with
    | .error err =>
      let s := s.emit (.log ("Error parsing template: " ++ err.Error))
      (s, .ret (httpError w "Could not load application template. Check templates/index.html."
        StatusInternalServerError))
    | .ok t =>
      let data : TemplateData := { Users := users }
      let (chunks, res) := t data
      let w := chunks.foldl ResponseWriter.Write w
      match res with
      | some err =>
        let s := s.emit (.log ("Error executing template: " ++ err.Error))
        (s, .ret (httpError w "Failed to render page." StatusInternalServerError))
      | none => (s, .ret w)

/-- The function `GetUsersHandler` of `handlers.go`. -/
def GetUsersHandler (dbs : Database) (s : State) (w : ResponseWriter) :
    State × Outcome ResponseWriter :=
  let w := w.set "Content-Type" "application/json"
  match GetUsers dbs s with
  | (s, .panic msg) => (s, .panic msg)
  | (s, .ret (_, some err)) =>
    let s := s.emit (.log ("Error retrieving users: " ++ err.Error))
    let w := w.WriteHeader StatusInternalServerError
    (s, .ret (jsonEncode w (encodeStringMap [("error", "Failed to retrieve users")])))
  | (s, .ret (users, none)) =>
    (s, .ret (jsonEncode w (encodeUsers users)))

/-! ## main.go -/

/-- The health check closure of `main`. -/
def healthHandler (w : ResponseWriter) : ResponseWriter :=
  let w := w.WriteHeader StatusOK
  w.Write "Service is healthy and connected to DB."

/-- The function `main` of `main.go`, up to where the process exits or starts to serve.
`listen addr` is what `http.ListenAndServe(addr, r)` returns, `none` when it
never returns. -/
def main (env : Env) (listen : String → Option GoError) (s : State) : State :=
  match InitDB env s with
  | (s, some err) => s.emit (.fatal ("Failed to initialize database: " ++ err.Error))
  | (s, none) =>
    let s := s.emit (.handleFunc "/" "GET")
    let s := s.emit (.handleFunc "/users" "GET")
    let s := s.emit (.handleFunc "/health" "GET")
    let port := "8080"
    let s := s.emit (.log ("Server listening on http://0.0.0.0:" ++ port))
    let s := s.emit (.listenAndServe (":" ++ port))
    match listen (":" ++ port) with
    | some err => s.emit (.fatal ("Server failed to start: " ++ err.Error))
    | none => s

/-! ## Reading a trace -/

/-- The number of `db.Ping()` calls in a trace. -/
def pings (t : List Event) : Nat :=
  t.countP (fun e => match e with | .ping _ => true | _ => false)

/-- The number of `sql.Open` calls in a trace. -/
def opens (t : List Event) : Nat :=
  t.countP (fun e => match e with | .sqlOpen _ _ => true | _ => false)

/-- The number of `time.Sleep` calls in a trace. -/
def sleeps (t : List Event) : Nat :=
  t.countP (fun e => match e with | .sleep _ => true | _ => false)

/-- The number of `rows.Scan` calls in a trace. -/
def scans (t : List Event) : Nat :=
  t.countP (fun e => match e with | .rowsScan => true | _ => false)

/-- The number of routes registered in a trace. -/
def routes (t : List Event) : Nat :=
  t.countP (fun e => match e with | .handleFunc _ _ => true | _ => false)

/-- The number of `http.ListenAndServe` calls in a trace. -/
def listens (t : List Event) : Nat :=
  t.countP (fun e => match e with | .listenAndServe _ => true | _ => false)

/-- The total time slept in a trace, in seconds. -/
def totalSleep : List Event → Nat
  | [] => 0
  | .sleep n :: t => n + totalSleep t
  | _ :: t => totalSleep t

/-- The ping and sleep events of a trace, in order. -/
def probeView (t : List Event) : List Event :=
  t.filter (fun e => match e with | .ping _ => true | .sleep _ => true | _ => false)

/-- The five required environment variables. -/
def requiredVars : List String :=
  ["DB_HOST", "DB_PORT", "MYSQL_USER", "MYSQL_PASSWORD", "MYSQL_DATABASE"]

/-- The data source name `InitDB` builds in environment `env`. -/
def dsnOf (env : Env) : String :=
  formatDSN (env.getenv "MYSQL_USER") (env.getenv "MYSQL_PASSWORD") (env.getenv "DB_HOST")
    (env.getenv "DB_PORT") (env.getenv "MYSQL_DATABASE")

/-- The state in which `InitDB` enters the retry loop. -/
def beforeLoop (env : Env) (db : Handle) (s : State) : State :=
  (((((s.emit (.log ("Attempting to connect to: " ++ env.getenv "MYSQL_USER" ++ "@tcp("
    ++ env.getenv "DB_HOST" ++ ":" ++ env.getenv "DB_PORT" ++ ")/"
    ++ env.getenv "MYSQL_DATABASE"))).emit (.sqlOpen "mysql" (dsnOf env))).emit
    (.setConnMaxLifetime db (60 * 3))).emit (.setMaxOpenConns db 10)).emit
    (.setMaxIdleConns db 10))

/-- The first success is at attempt `k`, counted from 1: the probes before it
fail and the `k`-th succeeds. -/
def FirstSuccessAt (env : Env) (k : Nat) : Prop :=
  1 ≤ k ∧ (∀ j, j + 1 < k → env.ping j ≠ none) ∧ env.ping (k - 1) = none

/-! ## Sample inputs -/

/-- A sample environment: all five variables set, `sql.Open` succeeds, the
first two probes fail and the third succeeds. -/
def sampleEnv : Env where
  getenv := fun name =>
    if name = "DB_HOST" then "db" else if name = "DB_PORT" then "3306"
    else if name = "MYSQL_USER" then "app" else if name = "MYSQL_PASSWORD" then "secret"
    else if name = "MYSQL_DATABASE" then "shop" else ""
  sqlOpen := fun _ _ => .ok ⟨1⟩
  ping := fun n => if n < 2 then some (.errorf "connection refused") else none

/-- The sample environment with `DB_HOST` unset. -/
def noHostEnv : Env :=
  { sampleEnv with getenv := fun name => if name = "DB_HOST" then "" else sampleEnv.getenv name }

/-- The sample environment with a database that never answers. -/
def deadEnv : Env :=
  { sampleEnv with ping := fun _ => some (.errorf "connection refused") }

/-- The sample environment with a driver that rejects the data source name. -/
def badDriverEnv : Env :=
  { sampleEnv with sqlOpen := fun _ _ => .error (.errorf "invalid DSN") }

/-- A state before `InitDB`: `DB` is nil and nothing has happened. -/
def initial : State := { DB := none, trace := [] }

/-- A state after a successful `InitDB`: `DB` holds the handle. -/
def connected : State := { DB := some ⟨1⟩, trace := [] }

/-- The row (1, alice, alice@x.com, t1, true). -/
def aliceRow : Row :=
  { scan := .ok { id := 1, username := "alice", email := "alice@x.com",
                  created_at := ⟨"2024-01-01T00:00:00Z"⟩, is_active := true } }

/-- The row (2, bob, bob@x.com, t2, false). -/
def bobRow : Row :=
  { scan := .ok { id := 2, username := "bob", email := "bob@x.com",
                  created_at := ⟨"2024-01-02T00:00:00Z"⟩, is_active := false } }

/-- A row whose `id` column does not convert to `int`. -/
def badRow : Row :=
  { scan := .error (.errorf "sql: Scan error on column index 0, name \"id\"") }

/-- A database whose `users` table holds alice and bob. -/
def twoUsers : Database :=
  { query := fun _ _ => .ok { rows := [aliceRow, bobRow], err := none } }

/-- A database whose `users` table is empty. -/
def noUsers : Database :=
  { query := fun _ _ => .ok { rows := [], err := none } }

/-- A database whose second row does not decode. -/
def brokenRow : Database :=
  { query := fun _ _ => .ok { rows := [aliceRow, badRow, bobRow], err := none } }

/-- A database that rejects the query. -/
def downDatabase : Database :=
  { query := fun _ _ => .error (.errorf "invalid connection") }

/-- A database that rejects the query for another reason. -/
def lockedDatabase : Database :=
  { query := fun _ _ => .error (.errorf "Error 1045: Access denied") }

/-- The text `{"error":"Failed to retrieve users"}`, without a newline. -/
def failureObject : String := "\x7b\"error\":\"Failed to retrieve users\"\x7d"

/-- The response of `GetUsersHandler` on a Repository failure. -/
def usersFailureResponse : ResponseWriter :=
  { header := [("Content-Type", "application/json")],
    status := some 500,
    sent := [("Content-Type", "application/json")],
    body := failureObject ++ "\n" }

/-- The response `http.Error` builds from a fresh response, a message and a
status code. -/
def plainTextResponse (message : String) (code : Nat) : ResponseWriter :=
  { header := [("Content-Type", "text/plain; charset=utf-8"), ("X-Content-Type-Options", "nosniff")],
    status := some code,
    sent := [("Content-Type", "text/plain; charset=utf-8"), ("X-Content-Type-Options", "nosniff")],
    body := message ++ "\n" }

/-- A template directory without `index.html`. -/
def noTemplates : Templates :=
  { parseFiles := fun _ => .error (.errorf "open templates/index.html: no such file or directory") }

/-- A listener that serves without ever returning. -/
def servesForever : String → Option GoError := fun _ => none


/-! ## Lemmas on traces -/

theorem pings_append (a b : List Event) : pings (a ++ b) = pings a + pings b := by
  simp [pings]

theorem opens_append (a b : List Event) : opens (a ++ b) = opens a + opens b := by
  simp [opens]

theorem sleeps_append (a b : List Event) : sleeps (a ++ b) = sleeps a + sleeps b := by
  simp [sleeps]

theorem totalSleep_append (a b : List Event) :
    totalSleep (a ++ b) = totalSleep a + totalSleep b := by
  induction a with
  | nil => simp [totalSleep]
  | cons e t ih =>
    cases e <;> simp [totalSleep, ih, Nat.add_assoc]

theorem probeView_append (a b : List Event) :
    probeView (a ++ b) = probeView a ++ probeView b := by
  simp [probeView]

/-! ## The retry loop -/

/-- Env-independent facts about one more failed round. -/
theorem retryLoop_fail_step (env : Env) (db : Handle) (left i : Nat) (s : State) (e : GoError)
    (h : env.ping i = some e) :
    retryLoop env db (left + 1) i s =
      retryLoop env db left (i + 1)
        (((s.emit (.ping db)).emit (.log ("Database ping failed (Attempt " ++ toString (i + 1)
          ++ "/" ++ toString maxRetries ++ "). Retrying in 5 seconds..."))).emit (.sleep 5)) := by
  simp [retryLoop, h]

theorem retryLoop_ok_step (env : Env) (db : Handle) (left i : Nat) (s : State)
    (h : env.ping i = none) :
    retryLoop env db (left + 1) i s =
      ((({ (s.emit (.ping db)) with DB := some db } : State).emit
        (.log "Successfully connected to MySQL!")), none) := by
  simp [retryLoop, h]

/-- When the next `left` probes all fail, the loop runs out: it returns the
connection-establishment error, leaves `DB` alone, and has made `left` probes
and `left` pauses of 5 seconds. -/
theorem retryLoop_all_fail (env : Env) (db : Handle) :
    ∀ (left i : Nat) (s : State), (∀ j, j < left → env.ping (i + j) ≠ none) →
      (retryLoop env db left i s).2 = some errRetriesExhausted ∧
      (retryLoop env db left i s).1.DB = s.DB ∧
      pings (retryLoop env db left i s).1.trace = pings s.trace + left ∧
      sleeps (retryLoop env db left i s).1.trace = sleeps s.trace + left ∧
      totalSleep (retryLoop env db left i s).1.trace = totalSleep s.trace + 5 * left ∧
      opens (retryLoop env db left i s).1.trace = opens s.trace ∧
      probeView (retryLoop env db left i s).1.trace =
        probeView s.trace ++ (List.replicate left [Event.ping db, Event.sleep 5]).flatten := by
  intro left
  induction left with
  | zero => intro i s _; simp [retryLoop]
  | succ n ih =>
    intro i s h
    have h0 : env.ping i ≠ none := by simpa using h 0 (Nat.succ_pos n)
    obtain ⟨e, he⟩ := Option.ne_none_iff_exists'.mp h0
    have hrest : ∀ j, j < n → env.ping (i + 1 + j) ≠ none := by
      intro j hj
      have := h (j + 1) (Nat.succ_lt_succ hj)
      simpa [Nat.add_assoc, Nat.add_comm 1 j] using this
    rw [retryLoop_fail_step env db n i s e he]
    obtain ⟨h1, h2, h3, h4, h5, h6, h7⟩ := ih (i + 1) _ hrest
    refine ⟨h1, ?_, ?_, ?_, ?_, ?_, ?_⟩
    · rw [h2]; rfl
    · rw [h3]; simp [State.emit, pings_append]; simp [pings]; omega
    · rw [h4]; simp [State.emit, sleeps_append]; simp [sleeps]; omega
    · rw [h5]; simp [State.emit, totalSleep_append]; simp [totalSleep]; omega
    · rw [h6]; simp [State.emit, opens_append]; simp [opens]
    · rw [h7]; simp [State.emit, probeView_append, List.replicate_succ]; simp [probeView]

/-- When the next `m` probes fail and the one after succeeds within the
budget, the loop returns nil after `m + 1` probes and `m` pauses of 5
seconds, with `DB` set to the handle. -/
theorem retryLoop_first_success (env : Env) (db : Handle) :
    ∀ (m left i : Nat) (s : State), m < left → (∀ j, j < m → env.ping (i + j) ≠ none) →
      env.ping (i + m) = none →
      (retryLoop env db left i s).2 = none ∧
      (retryLoop env db left i s).1.DB = some db ∧
      pings (retryLoop env db left i s).1.trace = pings s.trace + (m + 1) ∧
      sleeps (retryLoop env db left i s).1.trace = sleeps s.trace + m ∧
      totalSleep (retryLoop env db left i s).1.trace = totalSleep s.trace + 5 * m ∧
      opens (retryLoop env db left i s).1.trace = opens s.trace ∧
      probeView (retryLoop env db left i s).1.trace =
        probeView s.trace ++ (List.replicate m [Event.ping db, Event.sleep 5]).flatten
          ++ [Event.ping db] := by
  intro m
  induction m with
  | zero =>
    intro left i s hlt _ hok
    obtain ⟨n, rfl⟩ : ∃ n, left = n + 1 := ⟨left - 1, by omega⟩
    rw [retryLoop_ok_step env db n i s (by simpa using hok)]
    simp [State.emit, pings_append, sleeps_append, totalSleep_append, opens_append,
      probeView_append]
    simp [pings, sleeps, totalSleep, opens, probeView]
  | succ m ih =>
    intro left i s hlt hfail hok
    obtain ⟨n, rfl⟩ : ∃ n, left = n + 1 := ⟨left - 1, by omega⟩
    have h0 : env.ping i ≠ none := by simpa using hfail 0 (Nat.succ_pos m)
    obtain ⟨e, he⟩ := Option.ne_none_iff_exists'.mp h0
    have hrest : ∀ j, j < m → env.ping (i + 1 + j) ≠ none := by
      intro j hj
      have := hfail (j + 1) (Nat.succ_lt_succ hj)
      simpa [Nat.add_assoc, Nat.add_comm 1 j] using this
    have hok2 : env.ping (i + 1 + m) = none := by
      simpa [Nat.add_assoc, Nat.add_comm 1 m] using hok
    rw [retryLoop_fail_step env db n i s e he]
    obtain ⟨h1, h2, h3, h4, h5, h6, h7⟩ := ih n (i + 1) _ (by omega) hrest hok2
    refine ⟨h1, h2, ?_, ?_, ?_, ?_, ?_⟩
    · rw [h3]; simp [State.emit, pings_append]; simp [pings]; omega
    · rw [h4]; simp [State.emit, sleeps_append]; simp [sleeps]; omega
    · rw [h5]; simp [State.emit, totalSleep_append]; simp [totalSleep]; omega
    · rw [h6]; simp [State.emit, opens_append]; simp [opens]
    · rw [h7]; simp [State.emit, probeView_append, List.replicate_succ]; simp [probeView]

/-- An error return of the loop leaves `DB` as it was. -/
theorem retryLoop_error_keeps_DB (env : Env) (db : Handle) :
    ∀ (left i : Nat) (s : State) (e : GoError),
      (retryLoop env db left i s).2 = some e → (retryLoop env db left i s).1.DB = s.DB := by
  intro left
  induction left with
  | zero => intro i s e _; simp [retryLoop]
  | succ n ih =>
    intro i s e h
    cases hp : env.ping i with
    | none => rw [retryLoop_ok_step env db n i s hp] at h; simp at h
    | some e0 =>
      rw [retryLoop_fail_step env db n i s e0 hp] at h ⊢
      rw [ih _ _ e h]; rfl

/-! ## InitDB -/

theorem InitDB_missing (env : Env) (s : State)
    (h : ∃ v, v ∈ requiredVars ∧ env.getenv v = "") :
    InitDB env s = (s, some errMissingEnv) := by
  have h5 : env.getenv "DB_HOST" = "" ∨ env.getenv "DB_PORT" = "" ∨
      env.getenv "MYSQL_USER" = "" ∨ env.getenv "MYSQL_PASSWORD" = "" ∨
      env.getenv "MYSQL_DATABASE" = "" := by
    simpa [requiredVars] using h
  simp only [InitDB, if_pos h5]

theorem InitDB_open_ok (env : Env) (s : State) (db : Handle)
    (hcfg : ∀ v, v ∈ requiredVars → env.getenv v ≠ "")
    (hopen : env.sqlOpen "mysql" (dsnOf env) = .ok db) :
    InitDB env s = retryLoop env db maxRetries 0 (beforeLoop env db s) := by
  have h5 : ¬ (env.getenv "DB_HOST" = "" ∨ env.getenv "DB_PORT" = "" ∨
      env.getenv "MYSQL_USER" = "" ∨ env.getenv "MYSQL_PASSWORD" = "" ∨
      env.getenv "MYSQL_DATABASE" = "") := by
    simpa [requiredVars, not_or] using hcfg
  have hopen2 := hopen
  simp only [dsnOf] at hopen2
  simp only [InitDB, if_neg h5, hopen2, beforeLoop, dsnOf]

theorem InitDB_open_error (env : Env) (s : State) (err : GoError)
    (hcfg : ∀ v, v ∈ requiredVars → env.getenv v ≠ "")
    (hopen : env.sqlOpen "mysql" (dsnOf env) = .error err) :
    InitDB env s =
      ((s.emit (.log ("Attempting to connect to: " ++ env.getenv "MYSQL_USER" ++ "@tcp("
        ++ env.getenv "DB_HOST" ++ ":" ++ env.getenv "DB_PORT" ++ ")/"
        ++ env.getenv "MYSQL_DATABASE"))).emit (.sqlOpen "mysql" (dsnOf env)),
       some (.wrap "failed to open database connection" err)) := by
  have h5 : ¬ (env.getenv "DB_HOST" = "" ∨ env.getenv "DB_PORT" = "" ∨
      env.getenv "MYSQL_USER" = "" ∨ env.getenv "MYSQL_PASSWORD" = "" ∨
      env.getenv "MYSQL_DATABASE" = "") := by
    simpa [requiredVars, not_or] using hcfg
  have hopen2 := hopen
  simp only [dsnOf] at hopen2
  simp only [InitDB, if_neg h5, hopen2, dsnOf]

theorem beforeLoop_facts (env : Env) (db : Handle) (s : State) :
    (beforeLoop env db s).DB = s.DB ∧
    pings (beforeLoop env db s).trace = pings s.trace ∧
    sleeps (beforeLoop env db s).trace = sleeps s.trace ∧
    totalSleep (beforeLoop env db s).trace = totalSleep s.trace ∧
    opens (beforeLoop env db s).trace = opens s.trace + 1 ∧
    probeView (beforeLoop env db s).trace = probeView s.trace := by
  simp [beforeLoop, State.emit, pings_append, sleeps_append, totalSleep_append, opens_append,
    probeView_append]
  simp [pings, sleeps, totalSleep, opens, probeView]

/-- Either every variable is set or one of them is empty. -/
theorem config_cases (env : Env) :
    (∃ v, v ∈ requiredVars ∧ env.getenv v = "") ∨ (∀ v, v ∈ requiredVars → env.getenv v ≠ "") := by
  by_cases h : ∃ v, v ∈ requiredVars ∧ env.getenv v = ""
  · exact Or.inl h
  · refine Or.inr ?_
    intro v hv hempty
    exact h ⟨v, hv, hempty⟩

/-- Among the first `n` probes either all fail or there is a first success. -/
theorem probe_cases (env : Env) (n : Nat) :
    (∀ j, j < n → env.ping j ≠ none) ∨
    (∃ m, m < n ∧ (∀ j, j < m → env.ping j ≠ none) ∧ env.ping m = none) := by
  induction n with
  | zero => exact Or.inl (fun j hj => absurd hj (Nat.not_lt_zero j))
  | succ n ih =>
    rcases ih with hall | ⟨m, hm, hbefore, hok⟩
    · cases hp : env.ping n with
      | none => exact Or.inr ⟨n, Nat.lt_succ_self n, hall, hp⟩
      | some e =>
        refine Or.inl ?_
        intro j hj
        rcases Nat.lt_succ_iff_lt_or_eq.mp hj with hlt | rfl
        · exact hall j hlt
        · simp [hp]
    · exact Or.inr ⟨m, Nat.lt_succ_of_lt hm, hbefore, hok⟩

/-! ## Claims on InitDB -/

/-- C1: when one of the five configuration values is the empty string,
`InitDB` returns the configuration error at once, with the state untouched:
no `sql.Open`, no `Ping`, no `Sleep`; when all five are non-empty, the error
it returns, if any, is not the configuration error. -/
theorem InitDB_config_error (env : Env) (s : State) :
    ((∃ v, v ∈ requiredVars ∧ env.getenv v = "") →
      (InitDB env s).2 = some errMissingEnv ∧ (InitDB env s).1 = s ∧
      opens (InitDB env s).1.trace = opens s.trace ∧
      pings (InitDB env s).1.trace = pings s.trace ∧
      sleeps (InitDB env s).1.trace = sleeps s.trace) ∧
    ((∀ v, v ∈ requiredVars → env.getenv v ≠ "") →
      (InitDB env s).2 ≠ some errMissingEnv) := by
  constructor
  · intro h
    rw [InitDB_missing env s h]
    exact ⟨rfl, rfl, rfl, rfl, rfl⟩
  · intro hcfg
    cases hopen : env.sqlOpen "mysql" (dsnOf env) with
    | error err =>
      rw [InitDB_open_error env s err hcfg hopen]
      simp [errMissingEnv]
    | ok db =>
      rw [InitDB_open_ok env s db hcfg hopen]
      rcases probe_cases env maxRetries with hall | ⟨m, hm, hbefore, hok⟩
      · have h := (retryLoop_all_fail env db maxRetries 0 (beforeLoop env db s)
          (by simpa using hall)).1
        rw [h]
        decide
      · have h := (retryLoop_first_success env db m maxRetries 0 (beforeLoop env db s) hm
          (by simpa using hbefore) (by simpa using hok)).1
        rw [h]
        simp

theorem InitDB_config_error_witness :
    (∃ v, v ∈ requiredVars ∧ noHostEnv.getenv v = "") ∧
    (∀ v, v ∈ requiredVars → sampleEnv.getenv v ≠ "") ∧
    InitDB noHostEnv initial = (initial, some errMissingEnv) ∧
    (InitDB sampleEnv initial).2 ≠ some errMissingEnv :=
  ⟨by decide, by decide,
    Prod.ext ((InitDB_config_error noHostEnv initial).1 (by decide)).2.1
      ((InitDB_config_error noHostEnv initial).1 (by decide)).1,
    (InitDB_config_error sampleEnv initial).2 (by decide)⟩

/-- C2: with all five configuration values non-empty and the handle opened,
`InitDB` returns nil exactly when one of the first 12 probes succeeds; when
all 12 fail it returns the connection-establishment error after exactly 12
probes. -/
theorem InitDB_success_iff_probe_in_budget (env : Env) (s : State) (db : Handle)
    (hcfg : ∀ v, v ∈ requiredVars → env.getenv v ≠ "")
    (hopen : env.sqlOpen "mysql" (dsnOf env) = .ok db) :
    ((InitDB env s).2 = none ↔ ∃ j, j < 12 ∧ env.ping j = none) ∧
    ((∀ j, j < 12 → env.ping j ≠ none) →
      (InitDB env s).2 = some errRetriesExhausted ∧
      pings (InitDB env s).1.trace = pings s.trace + 12) := by
  rw [InitDB_open_ok env s db hcfg hopen]
  have hfail : (∀ j, j < 12 → env.ping j ≠ none) →
      (retryLoop env db maxRetries 0 (beforeLoop env db s)).2 = some errRetriesExhausted ∧
      pings (retryLoop env db maxRetries 0 (beforeLoop env db s)).1.trace
        = pings s.trace + 12 := by
    intro hall
    have h := retryLoop_all_fail env db maxRetries 0 (beforeLoop env db s)
      (by simpa [maxRetries] using hall)
    refine ⟨h.1, ?_⟩
    rw [h.2.2.1, (beforeLoop_facts env db s).2.1]
    rfl
  refine ⟨⟨?_, ?_⟩, hfail⟩
  · intro hnone
    by_contra hno
    have hall : ∀ j, j < 12 → env.ping j ≠ none := by
      intro j hj hp
      exact hno ⟨j, hj, hp⟩
    rw [(hfail hall).1] at hnone
    cases hnone
  · rintro ⟨j, hj, hp⟩
    rcases probe_cases env maxRetries with hall | ⟨m, hm, hbefore, hok⟩
    · exact absurd hp (hall j hj)
    · exact (retryLoop_first_success env db m maxRetries 0 (beforeLoop env db s) hm
        (by simpa using hbefore) (by simpa using hok)).1

theorem InitDB_success_iff_probe_in_budget_witness :
    (∀ v, v ∈ requiredVars → deadEnv.getenv v ≠ "") ∧
    deadEnv.sqlOpen "mysql" (dsnOf deadEnv) = .ok ⟨1⟩ ∧
    (∀ j, j < 12 → deadEnv.ping j ≠ none) ∧
    (InitDB deadEnv initial).2 = some errRetriesExhausted ∧
    pings (InitDB deadEnv initial).1.trace = pings initial.trace + 12 :=
  ⟨by decide, rfl, fun _ _ => by simp [deadEnv],
    (InitDB_success_iff_probe_in_budget deadEnv initial ⟨1⟩ (by decide) rfl).2
      (fun _ _ => by simp [deadEnv])⟩

/-- C3: when the first successful probe is attempt `k` with `1 ≤ k ≤ 12`,
`InitDB` makes exactly `k` probes, returns nil and leaves `DB` equal to the
handle it opened; and whenever `InitDB` returns an error, `DB` is as it was
before the call. -/
theorem InitDB_publishes_on_first_success (env : Env) (s : State) :
    (∀ (db : Handle) (k : Nat), (∀ v, v ∈ requiredVars → env.getenv v ≠ "") →
      env.sqlOpen "mysql" (dsnOf env) = .ok db → FirstSuccessAt env k → k ≤ 12 →
      pings (InitDB env s).1.trace = pings s.trace + k ∧
      (InitDB env s).2 = none ∧ (InitDB env s).1.DB = some db) ∧
    (∀ e, (InitDB env s).2 = some e → (InitDB env s).1.DB = s.DB) := by
  constructor
  · intro db k hcfg hopen ⟨hk1, hbefore, hok⟩ hk12
    rw [InitDB_open_ok env s db hcfg hopen]
    have h := retryLoop_first_success env db (k - 1) maxRetries 0 (beforeLoop env db s)
      (by simp only [maxRetries]; omega)
      (by intro j hj; simpa using hbefore j (by omega)) (by simpa using hok)
    refine ⟨?_, h.1, h.2.1⟩
    rw [h.2.2.1, (beforeLoop_facts env db s).2.1]
    omega
  · intro e he
    rcases config_cases env with hmiss | hcfg
    · rw [InitDB_missing env s hmiss]
    · cases hopen : env.sqlOpen "mysql" (dsnOf env) with
      | error err => rw [InitDB_open_error env s err hcfg hopen]; rfl
      | ok db =>
        rw [InitDB_open_ok env s db hcfg hopen] at he ⊢
        rw [retryLoop_error_keeps_DB env db _ _ _ e he, (beforeLoop_facts env db s).1]

theorem InitDB_publishes_on_first_success_witness :
    (∀ v, v ∈ requiredVars → sampleEnv.getenv v ≠ "") ∧
    sampleEnv.sqlOpen "mysql" (dsnOf sampleEnv) = .ok ⟨1⟩ ∧
    FirstSuccessAt sampleEnv 3 ∧ 3 ≤ 12 ∧
    (pings (InitDB sampleEnv initial).1.trace = pings initial.trace + 3 ∧
      (InitDB sampleEnv initial).2 = none ∧ (InitDB sampleEnv initial).1.DB = some ⟨1⟩) ∧
    (InitDB deadEnv initial).2 = some errRetriesExhausted ∧
    (InitDB deadEnv initial).1.DB = initial.DB :=
  ⟨by decide, rfl,
    ⟨by decide, fun j hj => by simp [sampleEnv, show j < 2 by omega], by decide⟩,
    by decide,
    (InitDB_publishes_on_first_success sampleEnv initial).1 ⟨1⟩ 3 (by decide) rfl
      ⟨by decide, fun j hj => by simp [sampleEnv, show j < 2 by omega], by decide⟩ (by decide),
    by decide,
    (InitDB_publishes_on_first_success deadEnv initial).2 errRetriesExhausted (by decide)⟩

/-- C10: the pings and pauses of `InitDB` alternate: each failed probe is
followed by one pause of 5 seconds and the successful probe by none.  So the
total pause is `5 * (k - 1)` seconds when the first success is attempt `k`,
exactly 60 seconds when all 12 probes fail, and never more than 60. -/
theorem InitDB_pause_schedule (env : Env) (s : State) :
    (∀ (db : Handle) (k : Nat), (∀ v, v ∈ requiredVars → env.getenv v ≠ "") →
      env.sqlOpen "mysql" (dsnOf env) = .ok db → FirstSuccessAt env k → k ≤ 12 →
      probeView (InitDB env s).1.trace =
        probeView s.trace ++ (List.replicate (k - 1) [Event.ping db, Event.sleep 5]).flatten
          ++ [Event.ping db] ∧
      sleeps (InitDB env s).1.trace = sleeps s.trace + (k - 1) ∧
      totalSleep (InitDB env s).1.trace = totalSleep s.trace + 5 * (k - 1)) ∧
    (∀ (db : Handle), (∀ v, v ∈ requiredVars → env.getenv v ≠ "") →
      env.sqlOpen "mysql" (dsnOf env) = .ok db → (∀ j, j < 12 → env.ping j ≠ none) →
      probeView (InitDB env s).1.trace =
        probeView s.trace ++ (List.replicate 12 [Event.ping db, Event.sleep 5]).flatten ∧
      sleeps (InitDB env s).1.trace = sleeps s.trace + 12 ∧
      totalSleep (InitDB env s).1.trace = totalSleep s.trace + 60) ∧
    totalSleep (InitDB env s).1.trace ≤ totalSleep s.trace + 60 := by
  have hsucc : ∀ (db : Handle) (m : Nat), (∀ v, v ∈ requiredVars → env.getenv v ≠ "") →
      env.sqlOpen "mysql" (dsnOf env) = .ok db → m < 12 →
      (∀ j, j < m → env.ping j ≠ none) → env.ping m = none →
      probeView (InitDB env s).1.trace =
        probeView s.trace ++ (List.replicate m [Event.ping db, Event.sleep 5]).flatten
          ++ [Event.ping db] ∧
      sleeps (InitDB env s).1.trace = sleeps s.trace + m ∧
      totalSleep (InitDB env s).1.trace = totalSleep s.trace + 5 * m := by
    intro db m hcfg hopen hm hbefore hok
    rw [InitDB_open_ok env s db hcfg hopen]
    have h := retryLoop_first_success env db m maxRetries 0 (beforeLoop env db s)
      (by simpa [maxRetries] using hm) (by simpa using hbefore) (by simpa using hok)
    obtain ⟨_, _, _, hs, ht, _, hv⟩ := h
    have hb := beforeLoop_facts env db s
    rw [hv, hs, ht, hb.2.2.1, hb.2.2.2.1, hb.2.2.2.2.2]
    exact ⟨rfl, rfl, rfl⟩
  have hfail : ∀ (db : Handle), (∀ v, v ∈ requiredVars → env.getenv v ≠ "") →
      env.sqlOpen "mysql" (dsnOf env) = .ok db → (∀ j, j < 12 → env.ping j ≠ none) →
      probeView (InitDB env s).1.trace =
        probeView s.trace ++ (List.replicate 12 [Event.ping db, Event.sleep 5]).flatten ∧
      sleeps (InitDB env s).1.trace = sleeps s.trace + 12 ∧
      totalSleep (InitDB env s).1.trace = totalSleep s.trace + 60 := by
    intro db hcfg hopen hall
    rw [InitDB_open_ok env s db hcfg hopen]
    have h := retryLoop_all_fail env db maxRetries 0 (beforeLoop env db s)
      (by simpa [maxRetries] using hall)
    obtain ⟨_, _, _, hs, ht, _, hv⟩ := h
    have hb := beforeLoop_facts env db s
    rw [hv, hs, ht, hb.2.2.1, hb.2.2.2.1, hb.2.2.2.2.2]
    exact ⟨rfl, rfl, rfl⟩
  refine ⟨?_, hfail, ?_⟩
  · intro db k hcfg hopen ⟨hk1, hbefore, hok⟩ hk12
    exact hsucc db (k - 1) hcfg hopen (by omega) (fun j hj => hbefore j (by omega)) hok
  · rcases config_cases env with hmiss | hcfg
    · rw [InitDB_missing env s hmiss]
      exact Nat.le_add_right _ _
    · cases hopen : env.sqlOpen "mysql" (dsnOf env) with
      | error err =>
        rw [InitDB_open_error env s err hcfg hopen]
        simp [State.emit, totalSleep_append, totalSleep]
      | ok db =>
        rcases probe_cases env 12 with hall | ⟨m, hm, hbefore, hok⟩
        · rw [(hfail db hcfg hopen hall).2.2]
        · rw [(hsucc db m hcfg hopen hm hbefore hok).2.2]
          omega

theorem InitDB_pause_schedule_witness :
    (∀ v, v ∈ requiredVars → sampleEnv.getenv v ≠ "") ∧
    sampleEnv.sqlOpen "mysql" (dsnOf sampleEnv) = .ok ⟨1⟩ ∧
    FirstSuccessAt sampleEnv 3 ∧ 3 ≤ 12 ∧
    (probeView (InitDB sampleEnv initial).1.trace =
        probeView initial.trace
          ++ (List.replicate (3 - 1) [Event.ping ⟨1⟩, Event.sleep 5]).flatten
          ++ [Event.ping ⟨1⟩] ∧
      sleeps (InitDB sampleEnv initial).1.trace = sleeps initial.trace + (3 - 1) ∧
      totalSleep (InitDB sampleEnv initial).1.trace = totalSleep initial.trace + 5 * (3 - 1)) ∧
    (∀ j, j < 12 → deadEnv.ping j ≠ none) ∧
    totalSleep (InitDB deadEnv initial).1.trace = totalSleep initial.trace + 60 :=
  ⟨by decide, rfl,
    ⟨by decide, fun j hj => by simp [sampleEnv, show j < 2 by omega], by decide⟩,
    by decide,
    (InitDB_pause_schedule sampleEnv initial).1 ⟨1⟩ 3 (by decide) rfl
      ⟨by decide, fun j hj => by simp [sampleEnv, show j < 2 by omega], by decide⟩ (by decide),
    fun _ _ => by simp [deadEnv],
    ((InitDB_pause_schedule deadEnv initial).2.1 ⟨1⟩ (by decide) rfl
      (fun _ _ => by simp [deadEnv])).2.2⟩

/-! ## GetUsers -/

theorem scans_append (a b : List Event) : scans (a ++ b) = scans a + scans b := by
  simp [scans]

/-- The rows either all decode, or split at the first one that does not. -/
theorem rows_cases (rows : List Row) :
    (∀ r, r ∈ rows → ∃ c, r.scan = .ok c) ∨
    (∃ pre r post err, rows = pre ++ r :: post ∧ (∀ x, x ∈ pre → ∃ c, x.scan = .ok c) ∧
      r.scan = .error err) := by
  induction rows with
  | nil => exact Or.inl (fun r hr => absurd hr (List.not_mem_nil r))
  | cons r rest ih =>
    cases hr : r.scan with
    | error err => exact Or.inr ⟨[], r, rest, err, rfl, fun x hx => absurd hx (List.not_mem_nil x), hr⟩
    | ok c =>
      rcases ih with hall | ⟨pre, r2, post, err, hsplit, hpre, hr2⟩
      · refine Or.inl ?_
        intro x hx
        rcases List.mem_cons.mp hx with rfl | hx
        · exact ⟨c, hr⟩
        · exact hall x hx
      · refine Or.inr ⟨r :: pre, r2, post, err, by simp [hsplit], ?_, hr2⟩
        intro x hx
        rcases List.mem_cons.mp hx with rfl | hx
        · exact ⟨c, hr⟩
        · exact hpre x hx

/-- When every row decodes, the scan loop ends normally: it has appended one
record per row, in row order, each with the five columns of its row, after
one `Scan` per row. -/
theorem scanLoop_all_decode :
    ∀ (rows : List Row) (acc : GoSlice User) (s : State),
      (∀ r, r ∈ rows → ∃ c, r.scan = .ok c) →
      ∃ (s2 : State) (users : GoSlice User) (l : List User),
        scanLoop rows acc s = (s2, .ok users) ∧ s2.DB = s.DB ∧
        users.elems = acc.elems ++ l ∧ (rows = [] → users = acc) ∧
        List.Forall₂ (fun r u => r.scan =
          .ok ⟨u.ID, u.Username, u.Email, u.CreatedAt, u.IsActive⟩) rows l ∧
        scans s2.trace = scans s.trace + rows.length := by
  intro rows
  induction rows with
  | nil =>
    intro acc s _
    refine ⟨s.emit .rowsNext, acc, [], rfl, rfl, by simp, fun _ => rfl, List.Forall₂.nil, ?_⟩
    simp [State.emit, scans_append]; simp [scans]
  | cons r rest ih =>
    intro acc s h
    obtain ⟨c, hc⟩ := h r (List.mem_cons_self r rest)
    obtain ⟨s2, users, l, h1, h2, h3, _, h5, h6⟩ :=
      ih (acc.append ⟨c.id, c.username, c.email, c.created_at, c.is_active⟩)
        ((s.emit .rowsNext).emit .rowsScan) (fun x hx => h x (List.mem_cons_of_mem r hx))
    refine ⟨s2, users, ⟨c.id, c.username, c.email, c.created_at, c.is_active⟩ :: l,
      ?_, ?_, ?_, ?_, ?_, ?_⟩
    · simp only [scanLoop, hc]; exact h1
    · rw [h2]; rfl
    · rw [h3]; cases acc <;> simp [GoSlice.append, GoSlice.elems]
    · intro hnil; cases hnil
    · exact List.Forall₂.cons hc h5
    · rw [h6]; simp [State.emit, scans_append]; simp [scans]; omega

/-- When the rows before `r` decode and `r` does not, the scan loop returns
the wrapped decode error right after the `Scan` of `r`. -/
theorem scanLoop_first_bad :
    ∀ (pre : List Row) (r : Row) (post : List Row) (err : GoError) (acc : GoSlice User)
      (s : State), (∀ x, x ∈ pre → ∃ c, x.scan = .ok c) → r.scan = .error err →
      ∃ s2 : State, scanLoop (pre ++ r :: post) acc s
          = (s2, .error (.wrap "error scanning user row" err)) ∧ s2.DB = s.DB ∧
        scans s2.trace = scans s.trace + (pre.length + 1) := by
  intro pre
  induction pre with
  | nil =>
    intro r post err acc s _ hr
    refine ⟨(s.emit .rowsNext).emit .rowsScan, ?_, rfl, ?_⟩
    · simp only [List.nil_append, scanLoop, hr]
    · simp [State.emit, scans_append]; simp [scans]
  | cons x pre ih =>
    intro r post err acc s hpre hr
    obtain ⟨c, hc⟩ := hpre x (List.mem_cons_self x pre)
    obtain ⟨s2, h1, h2, h3⟩ :=
      ih r post err (acc.append ⟨c.id, c.username, c.email, c.created_at, c.is_active⟩)
        ((s.emit .rowsNext).emit .rowsScan) (fun y hy => hpre y (List.mem_cons_of_mem x hy)) hr
    refine ⟨s2, ?_, ?_, ?_⟩
    · simp only [List.cons_append, scanLoop, hc]; exact h1
    · rw [h2]; rfl
    · rw [h3]; simp [State.emit, scans_append]; simp [scans]; omega

theorem GetUsers_nil_DB (dbs : Database) (s : State) (hDB : s.DB = none) :
    GetUsers dbs s =
      (s, .panic "runtime error: invalid memory address or nil pointer dereference") := by
  simp only [GetUsers, hDB]

theorem GetUsers_query_error (dbs : Database) (s : State) (db : Handle) (err : GoError)
    (hDB : s.DB = some db) (hq : dbs.query db usersQuery = .error err) :
    GetUsers dbs s =
      (s.emit (.query db usersQuery), .ret (none, some (.wrap "error querying users" err))) := by
  simp only [GetUsers, hDB, hq]

theorem GetUsers_scan_error (dbs : Database) (s s2 : State) (db : Handle) (rs : ResultSet)
    (e : GoError) (hDB : s.DB = some db) (hq : dbs.query db usersQuery = .ok rs)
    (hscan : scanLoop rs.rows none (s.emit (.query db usersQuery)) = (s2, .error e)) :
    GetUsers dbs s = (s2.emit .rowsClose, .ret (none, some e)) := by
  simp only [GetUsers, hDB, hq, hscan]

theorem GetUsers_iteration_error (dbs : Database) (s s2 : State) (db : Handle) (rs : ResultSet)
    (users : GoSlice User) (err : GoError) (hDB : s.DB = some db)
    (hq : dbs.query db usersQuery = .ok rs)
    (hscan : scanLoop rs.rows none (s.emit (.query db usersQuery)) = (s2, .ok users))
    (herr : rs.err = some err) :
    GetUsers dbs s = ((s2.emit .rowsErr).emit .rowsClose,
      .ret (none, some (.wrap "error during row iteration" err))) := by
  simp only [GetUsers, hDB, hq, hscan, herr]

theorem GetUsers_success (dbs : Database) (s s2 : State) (db : Handle) (rs : ResultSet)
    (users : GoSlice User) (hDB : s.DB = some db)
    (hq : dbs.query db usersQuery = .ok rs)
    (hscan : scanLoop rs.rows none (s.emit (.query db usersQuery)) = (s2, .ok users))
    (herr : rs.err = none) :
    GetUsers dbs s = ((s2.emit .rowsErr).emit .rowsClose, .ret (users, none)) := by
  simp only [GetUsers, hDB, hq, hscan, herr]

/-- Every way `GetUsers` can end: a panic on a nil `DB`, an error with the
nil slice, or a slice with a nil error. -/
theorem GetUsers_cases (dbs : Database) (s : State) :
    (s.DB = none ∧ ∃ msg, (GetUsers dbs s).2 = .panic msg) ∨
    (∃ e, (GetUsers dbs s).2 = .ret (none, some e)) ∨
    (∃ users, (GetUsers dbs s).2 = .ret (users, none)) := by
  cases hDB : s.DB with
  | none => exact Or.inl ⟨rfl, _, by rw [GetUsers_nil_DB dbs s hDB]⟩
  | some db =>
    refine Or.inr ?_
    cases hq : dbs.query db usersQuery with
    | error err => exact Or.inl ⟨_, by rw [GetUsers_query_error dbs s db err hDB hq]⟩
    | ok rs =>
      rcases hs : scanLoop rs.rows none (s.emit (.query db usersQuery)) with ⟨s2, res⟩
      cases res with
      | error e => exact Or.inl ⟨_, by rw [GetUsers_scan_error dbs s s2 db rs e hDB hq hs]⟩
      | ok users =>
        cases herr : rs.err with
        | some err =>
          exact Or.inl ⟨_, by rw [GetUsers_iteration_error dbs s s2 db rs users err hDB hq hs herr]⟩
        | none =>
          exact Or.inr ⟨users, by rw [GetUsers_success dbs s s2 db rs users hDB hq hs herr]⟩

/-- The result of `GetUsers` when nothing fails. -/
theorem GetUsers_all_decode (dbs : Database) (s : State) (db : Handle) (rs : ResultSet)
    (hDB : s.DB = some db) (hq : dbs.query db usersQuery = .ok rs)
    (hdec : ∀ r, r ∈ rs.rows → ∃ c, r.scan = .ok c) (herr : rs.err = none) :
    ∃ users : GoSlice User, (GetUsers dbs s).2 = .ret (users, none) ∧
      users.len = rs.rows.length ∧
      List.Forall₂ (fun r u => r.scan =
        .ok ⟨u.ID, u.Username, u.Email, u.CreatedAt, u.IsActive⟩) rs.rows users.elems := by
  obtain ⟨s2, users, l, h1, _, h3, _, h5, _⟩ :=
    scanLoop_all_decode rs.rows none (s.emit (.query db usersQuery)) hdec
  have hl : users.elems = l := by simpa [GoSlice.elems] using h3
  refine ⟨users, by rw [GetUsers_success dbs s s2 db rs users hDB hq h1 herr], ?_, ?_⟩
  · have hlen := h5.length_eq
    rw [← hl] at hlen
    cases users <;> simpa [GoSlice.len, GoSlice.elems] using hlen.symm
  · rw [hl]; exact h5

/-! ## Claims on GetUsers -/

/-- C4: when the query succeeds, every row decodes and `rows.Err()` is nil,
`GetUsers` returns a nil error and as many records as there are rows, the
`i`-th record holding columns 1 to 5 of the `i`-th row as `ID`, `Username`,
`Email`, `CreatedAt`, `IsActive`. -/
theorem GetUsers_maps_rows_in_order (dbs : Database) (s : State) (db : Handle) (rs : ResultSet)
    (hDB : s.DB = some db) (hq : dbs.query db usersQuery = .ok rs)
    (hdec : ∀ r, r ∈ rs.rows → ∃ c, r.scan = .ok c) (herr : rs.err = none) :
    ∃ users : GoSlice User, (GetUsers dbs s).2 = .ret (users, none) ∧
      users.len = rs.rows.length ∧
      List.Forall₂ (fun r u => r.scan =
        .ok ⟨u.ID, u.Username, u.Email, u.CreatedAt, u.IsActive⟩) rs.rows users.elems :=
  GetUsers_all_decode dbs s db rs hDB hq hdec herr

theorem GetUsers_maps_rows_in_order_witness :
    connected.DB = some ⟨1⟩ ∧
    twoUsers.query ⟨1⟩ usersQuery = .ok { rows := [aliceRow, bobRow], err := none } ∧
    (∀ r, r ∈ [aliceRow, bobRow] → ∃ c, r.scan = .ok c) ∧
    (∃ users : GoSlice User, (GetUsers twoUsers connected).2 = .ret (users, none) ∧
      users.len = [aliceRow, bobRow].length ∧
      List.Forall₂ (fun r u => r.scan =
        .ok ⟨u.ID, u.Username, u.Email, u.CreatedAt, u.IsActive⟩) [aliceRow, bobRow]
        users.elems) :=
  ⟨rfl, rfl, by simp [aliceRow, bobRow],
    GetUsers_maps_rows_in_order twoUsers connected ⟨1⟩
      { rows := [aliceRow, bobRow], err := none } rfl rfl (by simp [aliceRow, bobRow]) rfl⟩

/-- C5: `GetUsers` returns an error exactly when the query fails, or a row
does not decode, or `rows.Err()` reports an error after the loop; the slice
returned with an error is always nil; and when row `r` is the first that
does not decode, `GetUsers` returns that decode error after scanning `r`
and no row after it. -/
theorem GetUsers_error_iff (dbs : Database) (s : State) :
    ((∃ users e, (GetUsers dbs s).2 = .ret (users, some e)) ↔
      ∃ db, s.DB = some db ∧
        ((∃ err, dbs.query db usersQuery = .error err) ∨
         ∃ rs, dbs.query db usersQuery = .ok rs ∧
          ((∃ r err, r ∈ rs.rows ∧ r.scan = .error err) ∨ rs.err ≠ none))) ∧
    (∀ users e, (GetUsers dbs s).2 = .ret (users, some e) → users = none) ∧
    (∀ db rs pre r post err, s.DB = some db → dbs.query db usersQuery = .ok rs →
      rs.rows = pre ++ r :: post → (∀ x, x ∈ pre → ∃ c, x.scan = .ok c) →
      r.scan = .error err →
      (GetUsers dbs s).2 = .ret (none, some (.wrap "error scanning user row" err)) ∧
      scans (GetUsers dbs s).1.trace = scans s.trace + (pre.length + 1)) := by
  refine ⟨?_, ?_, ?_⟩
  · cases hDB : s.DB with
    | none =>
      rw [GetUsers_nil_DB dbs s hDB]
      simp
    | some db =>
      cases hq : dbs.query db usersQuery with
      | error err =>
        rw [GetUsers_query_error dbs s db err hDB hq]
        simp [hq]
      | ok rs =>
        rcases rows_cases rs.rows with hall | ⟨pre, r, post, err, hsplit, hpre, hr⟩
        · obtain ⟨s2, users, l, h1, _, _, _, _, _⟩ :=
            scanLoop_all_decode rs.rows none (s.emit (.query db usersQuery)) hall
          have hnobad : ¬ ∃ r err, r ∈ rs.rows ∧ r.scan = Except.error err := by
            rintro ⟨r, err, hr, hbad⟩
            obtain ⟨c, hc⟩ := hall r hr
            rw [hc] at hbad
            cases hbad
          cases herr : rs.err with
          | some e =>
            rw [GetUsers_iteration_error dbs s s2 db rs users e hDB hq h1 herr]
            simp [hq, herr]
          | none =>
            rw [GetUsers_success dbs s s2 db rs users hDB hq h1 herr]
            simp [hq, herr]
            intro x hx e hbad
            exact hnobad ⟨x, e, hx, hbad⟩
        · obtain ⟨s2, h1, _, _⟩ :=
            scanLoop_first_bad pre r post err none (s.emit (.query db usersQuery)) hpre hr
          rw [← hsplit] at h1
          rw [GetUsers_scan_error dbs s s2 db rs _ hDB hq h1]
          have hbad : ∃ r err, r ∈ rs.rows ∧ r.scan = Except.error err :=
            ⟨r, err, by simp [hsplit], hr⟩
          simp [hq]
          exact Or.inl ⟨r, by simp [hsplit], err, hr⟩
  · intro users e h
    rcases GetUsers_cases dbs s with ⟨_, msg, hp⟩ | ⟨e2, he⟩ | ⟨u2, hu⟩
    · rw [hp] at h; cases h
    · rw [he] at h; cases h; rfl
    · rw [hu] at h; cases h
  · intro db rs pre r post err hDB hq hsplit hpre hr
    obtain ⟨s2, h1, _, h3⟩ :=
      scanLoop_first_bad pre r post err none (s.emit (.query db usersQuery)) hpre hr
    rw [← hsplit] at h1
    rw [GetUsers_scan_error dbs s s2 db rs _ hDB hq h1]
    refine ⟨rfl, ?_⟩
    simp [State.emit, scans_append] at h3 ⊢
    simp [scans] at h3 ⊢
    omega

theorem GetUsers_error_iff_witness :
    connected.DB = some ⟨1⟩ ∧
    brokenRow.query ⟨1⟩ usersQuery = .ok { rows := [aliceRow, badRow, bobRow], err := none } ∧
    (∀ x, x ∈ [aliceRow] → ∃ c, x.scan = .ok c) ∧
    badRow.scan = .error (.errorf "sql: Scan error on column index 0, name \"id\"") ∧
    (GetUsers brokenRow connected).2 = .ret (none, some (.wrap "error scanning user row"
      (.errorf "sql: Scan error on column index 0, name \"id\""))) ∧
    scans (GetUsers brokenRow connected).1.trace = scans connected.trace + ([aliceRow].length + 1) :=
  ⟨rfl, rfl, by simp [aliceRow], rfl,
    (GetUsers_error_iff brokenRow connected).2.2 ⟨1⟩
      { rows := [aliceRow, badRow, bobRow], err := none } [aliceRow] badRow [bobRow] _
      rfl rfl rfl (by simp [aliceRow]) rfl⟩

/-! ## Claims on the handlers -/

theorem GetUsers_eq_of_result (dbs : Database) (s : State)
    (res : Outcome (GoSlice User × Option GoError)) (h : (GetUsers dbs s).2 = res) :
    GetUsers dbs s = ((GetUsers dbs s).1, res) :=
  Prod.ext rfl h

/-- The counterexample to C6 as stated: with a database that rejects the
query, `GetUsers` returns an error and the body `GetUsersHandler` writes is
the JSON object followed by a newline, not the object alone. -/
theorem GetUsersHandler_failure_body_has_newline :
    (GetUsers downDatabase connected).2 =
      .ret (none, some (.wrap "error querying users" (.errorf "invalid connection"))) ∧
    ∃ w, (GetUsersHandler downDatabase connected ResponseWriter.new).2 = .ret w ∧
      w.body = failureObject ++ "\n" ∧ w.body ≠ failureObject :=
  ⟨by decide, usersFailureResponse, by decide, by decide, by decide⟩

/-- C6, amended: whenever `GetUsers` returns an error, `GetUsersHandler`
answers a fresh request with status 500, content type `application/json`
and the body `{"error":"Failed to retrieve users"}` followed by one newline,
the same response for every error. -/
theorem GetUsersHandler_failure_response (dbs : Database) (s : State) (users : GoSlice User)
    (e : GoError) (h : (GetUsers dbs s).2 = .ret (users, some e)) :
    (GetUsersHandler dbs s ResponseWriter.new).2 = .ret usersFailureResponse ∧
    usersFailureResponse.status = some 500 ∧
    usersFailureResponse.sentValue "Content-Type" = some "application/json" ∧
    usersFailureResponse.body = failureObject ++ "\n" := by
  refine ⟨?_, by decide, by decide, by decide⟩
  have hg := GetUsers_eq_of_result dbs s _ h
  simp only [GetUsersHandler]
  rw [hg]
  dsimp only
  decide

theorem GetUsersHandler_failure_response_witness :
    (GetUsers lockedDatabase connected).2 =
      .ret (none, some (.wrap "error querying users" (.errorf "Error 1045: Access denied"))) ∧
    ((GetUsersHandler lockedDatabase connected ResponseWriter.new).2 = .ret usersFailureResponse ∧
      usersFailureResponse.status = some 500 ∧
      usersFailureResponse.sentValue "Content-Type" = some "application/json" ∧
      usersFailureResponse.body = failureObject ++ "\n") :=
  ⟨by decide, GetUsersHandler_failure_response lockedDatabase connected none
    (.wrap "error querying users" (.errorf "Error 1045: Access denied")) (by decide)⟩

/-- On success `GetUsersHandler` answers a fresh request with status 200 and
the JSON encoding of the slice `GetUsers` returned, followed by a newline. -/
theorem GetUsersHandler_success_response (dbs : Database) (s : State) (users : GoSlice User)
    (h : (GetUsers dbs s).2 = .ret (users, none)) :
    (GetUsersHandler dbs s ResponseWriter.new).2 = .ret
      { header := [("Content-Type", "application/json")], status := some 200,
        sent := [("Content-Type", "application/json")],
        body := encodeUsers users ++ "\n" } := by
  have hg := GetUsers_eq_of_result dbs s _ h
  simp only [GetUsersHandler]
  rw [hg]
  simp [jsonEncode, ResponseWriter.Write, ResponseWriter.WriteHeader, ResponseWriter.set,
    ResponseWriter.new]

/-- C7 at its failing input: for a `users` table without rows `GetUsers`
succeeds with the nil slice, and the body `GetUsersHandler` writes is the
JSON value `null`, not the empty array. -/
theorem GetUsersHandler_no_rows_writes_null :
    (GetUsers noUsers connected).2 = .ret (none, none) ∧
    (GetUsersHandler noUsers connected ResponseWriter.new).2 = .ret
      { header := [("Content-Type", "application/json")], status := some 200,
        sent := [("Content-Type", "application/json")], body := "null\n" } ∧
    "null\n" ≠ encodeUserArray [] ++ "\n" :=
  ⟨by decide, by decide, by decide⟩

/-- For one row or more that all decode, the body `GetUsersHandler` writes is
the JSON array of one object per row, in row order, followed by a newline. -/
theorem GetUsersHandler_rows_write_array (dbs : Database) (s : State) (db : Handle)
    (rs : ResultSet) (hDB : s.DB = some db) (hq : dbs.query db usersQuery = .ok rs)
    (hdec : ∀ r, r ∈ rs.rows → ∃ c, r.scan = .ok c) (herr : rs.err = none)
    (hrows : rs.rows ≠ []) :
    ∃ l : List User, l.length = rs.rows.length ∧
      List.Forall₂ (fun r u => r.scan =
        .ok ⟨u.ID, u.Username, u.Email, u.CreatedAt, u.IsActive⟩) rs.rows l ∧
      (GetUsersHandler dbs s ResponseWriter.new).2 = .ret
        { header := [("Content-Type", "application/json")], status := some 200,
          sent := [("Content-Type", "application/json")],
          body := encodeUserArray l ++ "\n" } := by
  obtain ⟨users, h1, h2, h3⟩ := GetUsers_all_decode dbs s db rs hDB hq hdec herr
  cases users with
  | none =>
    exfalso
    apply hrows
    apply List.eq_nil_of_length_eq_zero
    simpa [GoSlice.len] using h2.symm
  | some l =>
    refine ⟨l, by simpa [GoSlice.len] using h2, by simpa [GoSlice.elems] using h3, ?_⟩
    rw [GetUsersHandler_success_response dbs s (some l) h1]
    rfl

/-- C9: on a fresh request `GetRootHandler` answers a Repository failure
with status 500 and the line "Failed to load user data for web page.", and a
template-load failure after a successful fetch with status 500 and the line
"Could not load application template. Check templates/index.html."; the two
responses differ and neither depends on the error. -/
theorem GetRootHandler_failure_responses (dbs : Database) (tpl : Templates) (s : State) :
    (∀ users e, (GetUsers dbs s).2 = .ret (users, some e) →
      (GetRootHandler dbs tpl s ResponseWriter.new).2 =
        .ret (plainTextResponse "Failed to load user data for web page." 500)) ∧
    (∀ users err, (GetUsers dbs s).2 = .ret (users, none) →
      tpl.parseFiles "templates/index.html" = .error err →
      (GetRootHandler dbs tpl s ResponseWriter.new).2 =
        .ret (plainTextResponse
          "Could not load application template. Check templates/index.html." 500)) ∧
    (plainTextResponse "Failed to load user data for web page." 500).status = some 500 ∧
    (plainTextResponse "Could not load application template. Check templates/index.html."
      500).status = some 500 ∧
    (plainTextResponse "Failed to load user data for web page." 500).body ≠
      (plainTextResponse "Could not load application template. Check templates/index.html."
        500).body := by
  refine ⟨?_, ?_, rfl, rfl, by decide⟩
  · intro users e h
    have hg := GetUsers_eq_of_result dbs s _ h
    simp only [GetRootHandler]
    rw [hg]
    rfl
  · intro users err h hp
    have hg := GetUsers_eq_of_result dbs s _ h
    simp only [GetRootHandler]
    rw [hg]
    simp only [hp]
    rfl

theorem GetRootHandler_failure_responses_witness :
    (GetUsers downDatabase connected).2 =
      .ret (none, some (.wrap "error querying users" (.errorf "invalid connection"))) ∧
    (GetRootHandler downDatabase noTemplates connected ResponseWriter.new).2 =
      .ret (plainTextResponse "Failed to load user data for web page." 500) ∧
    (GetUsers noUsers connected).2 = .ret (none, none) ∧
    noTemplates.parseFiles "templates/index.html" =
      .error (.errorf "open templates/index.html: no such file or directory") ∧
    (GetRootHandler noUsers noTemplates connected ResponseWriter.new).2 =
      .ret (plainTextResponse
        "Could not load application template. Check templates/index.html." 500) :=
  ⟨by decide,
    (GetRootHandler_failure_responses downDatabase noTemplates connected).1 none
      (.wrap "error querying users" (.errorf "invalid connection")) (by decide),
    by decide, rfl,
    (GetRootHandler_failure_responses noUsers noTemplates connected).2.1 none _ (by decide) rfl⟩

/-! ## Claims on main -/

theorem routes_append (a b : List Event) : routes (a ++ b) = routes a + routes b := by
  simp [routes]

theorem listens_append (a b : List Event) : listens (a ++ b) = listens a + listens b := by
  simp [listens]

/-- The retry loop registers no route and does not listen. -/
theorem retryLoop_no_serving (env : Env) (db : Handle) :
    ∀ (left i : Nat) (s : State),
      routes (retryLoop env db left i s).1.trace = routes s.trace ∧
      listens (retryLoop env db left i s).1.trace = listens s.trace := by
  intro left
  induction left with
  | zero => intro i s; exact ⟨rfl, rfl⟩
  | succ n ih =>
    intro i s
    cases hp : env.ping i with
    | none =>
      rw [retryLoop_ok_step env db n i s hp]
      simp [State.emit, routes_append, listens_append]
      simp [routes, listens]
    | some e =>
      rw [retryLoop_fail_step env db n i s e hp]
      obtain ⟨h1, h2⟩ := ih (i + 1)
        (((s.emit (.ping db)).emit (.log ("Database ping failed (Attempt " ++ toString (i + 1)
          ++ "/" ++ toString maxRetries ++ "). Retrying in 5 seconds..."))).emit (.sleep 5))
      rw [h1, h2]
      simp [State.emit, routes_append, listens_append]
      simp [routes, listens]

/-- The function `InitDB` registers no route and does not listen. -/
theorem InitDB_no_serving (env : Env) (s : State) :
    routes (InitDB env s).1.trace = routes s.trace ∧
    listens (InitDB env s).1.trace = listens s.trace := by
  rcases config_cases env with hmiss | hcfg
  · rw [InitDB_missing env s hmiss]
    exact ⟨rfl, rfl⟩
  · cases hopen : env.sqlOpen "mysql" (dsnOf env) with
    | error err =>
      rw [InitDB_open_error env s err hcfg hopen]
      simp [State.emit, routes_append, listens_append]
      simp [routes, listens]
    | ok db =>
      rw [InitDB_open_ok env s db hcfg hopen]
      obtain ⟨h1, h2⟩ := retryLoop_no_serving env db maxRetries 0 (beforeLoop env db s)
      rw [h1, h2]
      simp [beforeLoop, State.emit, routes_append, listens_append]
      simp [routes, listens]

/-- C8: when `InitDB` returns an error, `main` registers no route, never
calls `ListenAndServe`, and ends in `log.Fatalf` right after `InitDB`; so a
run of `main` that reaches `ListenAndServe` is one in which `InitDB`
returned nil. -/
theorem main_serves_only_after_InitDB (env : Env) (listen : String → Option GoError)
    (s : State) :
    (∀ e, (InitDB env s).2 = some e →
      main env listen s =
        (InitDB env s).1.emit (.fatal ("Failed to initialize database: " ++ e.Error)) ∧
      routes (main env listen s).trace = routes s.trace ∧
      listens (main env listen s).trace = listens s.trace) ∧
    (listens s.trace < listens (main env listen s).trace → (InitDB env s).2 = none) := by
  have hfirst : ∀ e, (InitDB env s).2 = some e →
      main env listen s =
        (InitDB env s).1.emit (.fatal ("Failed to initialize database: " ++ e.Error)) ∧
      routes (main env listen s).trace = routes s.trace ∧
      listens (main env listen s).trace = listens s.trace := by
    intro e he
    have hm : main env listen s =
        (InitDB env s).1.emit (.fatal ("Failed to initialize database: " ++ e.Error)) := by
      have hi : InitDB env s = ((InitDB env s).1, some e) := Prod.ext rfl he
      simp only [main]
      rw [hi]
    obtain ⟨h1, h2⟩ := InitDB_no_serving env s
    refine ⟨hm, ?_, ?_⟩
    · rw [hm]
      simp [State.emit, routes_append, h1]
      simp [routes]
    · rw [hm]
      simp [State.emit, listens_append, h2]
      simp [listens]
  refine ⟨hfirst, ?_⟩
  intro hlt
  cases he : (InitDB env s).2 with
  | none => rfl
  | some e =>
    have := (hfirst e he).2.2
    omega

theorem main_serves_only_after_InitDB_witness :
    (InitDB deadEnv initial).2 = some errRetriesExhausted ∧
    (main deadEnv servesForever initial =
        (InitDB deadEnv initial).1.emit
          (.fatal ("Failed to initialize database: " ++ errRetriesExhausted.Error)) ∧
      routes (main deadEnv servesForever initial).trace = routes initial.trace ∧
      listens (main deadEnv servesForever initial).trace = listens initial.trace) ∧
    listens initial.trace < listens (main sampleEnv servesForever initial).trace ∧
    (InitDB sampleEnv initial).2 = none :=
  ⟨by decide,
    (main_serves_only_after_InitDB deadEnv servesForever initial).1 errRetriesExhausted
      (by decide),
    by decide,
    (main_serves_only_after_InitDB sampleEnv servesForever initial).2 (by decide)⟩

end AzureDevopsGo
